import Mathlib

/-!
Verification of the Carmel daily check-in application.

The development shallowly embeds the two source modules:
* `js/app.js` — the flow controller: screens, the `flow` transition table,
  `goNext` / `goBack` with the dysregulation skip rule, `submit`, progress
  load/save, and `generateId`;
* the storage module — `saveLocal`, `save`, `markAsSynced`, `syncAll`,
  `exportCSV`, `clearLocal`, and configuration loading.

localStorage is modelled by passing the stored values explicitly; the DOM
and network are modelled by explicit parameters (remote-call outcomes,
textarea contents).  Screens keep their source identifiers minus the
`screen-` prefix.
-/

/-- The eight screens of the wizard, as keyed in `app.flow`
(`screen-welcome` … `screen-done`). -/
inductive Screen
  | welcome
  | q1
  | q2
  | q3
  | q4
  | q4b
  | q5
  | done
deriving DecidableEq

/-- The `next` pointers of the static `app.flow` table
(`screen-done` has `next: null`). -/
def flowNext : Screen → Option Screen
  | .welcome => some .q1
  | .q1 => some .q2
  | .q2 => some .q3
  | .q3 => some .q4
  | .q4 => some .q4b
  | .q4b => some .q5
  | .q5 => some .done
  | .done => none

/-- The `prev` pointers of the static `app.flow` table
(`screen-welcome` has no `prev`, `screen-done` has `prev: null`). -/
def flowPrev : Screen → Option Screen
  | .welcome => none
  | .q1 => some .welcome
  | .q2 => some .q1
  | .q3 => some .q2
  | .q4 => some .q3
  | .q4b => some .q4
  | .q5 => some .q4b
  | .done => none

/-- `app.state.responses`: one field per question.  Unset fields are `none`
(`null` in the source); `free_response` defaults to the empty string. -/
structure Responses where
  overall_day : Option Nat
  academic_focus : Option Nat
  social_interactions : Option String
  dysregulation_count : Option Nat
  used_coping_strategy : Option String
  free_response : String
deriving DecidableEq

/-- The initial (and `reset`) answer set: everything `null`, empty note. -/
def emptyResponses : Responses :=
  { overall_day := none
    academic_focus := none
    social_interactions := none
    dysregulation_count := none
    used_coping_strategy := none
    free_response := "" }

/-- `app.state`: current screen, session start time (ms, `null` before
`start()`), and the answer set. -/
structure AppState where
  currentScreen : Screen
  startTime : Option Int
  responses : Responses
deriving DecidableEq

/-- The state the controller boots with: `screen-welcome`, no start time,
empty answers. -/
def initialAppState : AppState :=
  { currentScreen := .welcome, startTime := none, responses := emptyResponses }

/-- `app.goNext()`: the `flow` table's `next` pointer, except that from `q4`
with `dysregulation_count === 0` the target is overridden to `q5` and
`used_coping_strategy` is set to `'n/a'`.  A `null` next pointer means no
transition. -/
def goNext (st : AppState) : AppState :=
  if st.currentScreen = Screen.q4 ∧ st.responses.dysregulation_count = some 0 then
    { st with
        currentScreen := Screen.q5
        responses := { st.responses with used_coping_strategy := some "n/a" } }
  else
    match flowNext st.currentScreen with
    | some n => { st with currentScreen := n }
    | none => st

/-- `app.goBack()`: the `flow` table's `prev` pointer, except that from `q5`
with `dysregulation_count === 0` the target is overridden to `q4`.  A `null`
prev pointer means no transition. -/
def goBack (st : AppState) : AppState :=
  if st.currentScreen = Screen.q5 ∧ st.responses.dysregulation_count = some 0 then
    { st with currentScreen := Screen.q4 }
  else
    match flowPrev st.currentScreen with
    | some p => { st with currentScreen := p }
    | none => st

/-- A navigation request: one call to `goNext()` or `goBack()`. -/
inductive NavOp
  | next
  | back
deriving DecidableEq

/-- Apply one navigation request to the controller state. -/
def navStep (st : AppState) : NavOp → AppState
  | .next => goNext st
  | .back => goBack st

/-- Run a sequence of `goNext()`/`goBack()` calls from `screen-welcome`
with a fixed answer set `r`. -/
def navRun (r : Responses) (ops : List NavOp) : AppState :=
  ops.foldl navStep { currentScreen := .welcome, startTime := none, responses := r }

/-- Modelled from the spec: the static forward chain
welcome→q1→q2→q3→q4→q4b→q5→done of the claim, with `q4b` skipped forward
when `dysregulation_count = 0`, and `done` terminal. -/
def chainNext (dysZero : Bool) : Screen → Screen
  | .welcome => .q1
  | .q1 => .q2
  | .q2 => .q3
  | .q3 => .q4
  | .q4 => if dysZero then .q5 else .q4b
  | .q4b => .q5
  | .q5 => .done
  | .done => .done

/-- Modelled from the spec: the symmetric backward chain of the claim, with
`q4b` skipped backward when `dysregulation_count = 0`; `welcome` is initial
and `done` terminal, so neither moves back. -/
def chainPrev (dysZero : Bool) : Screen → Screen
  | .welcome => .welcome
  | .q1 => .welcome
  | .q2 => .q1
  | .q3 => .q2
  | .q4 => .q3
  | .q4b => .q4
  | .q5 => if dysZero then .q4 else .q4b
  | .done => .done

/-- One step of the claimed chain. -/
def chainStep (dysZero : Bool) (s : Screen) : NavOp → Screen
  | .next => chainNext dysZero s
  | .back => chainPrev dysZero s

/-- The claimed chain run from `welcome`. -/
def chainRun (dysZero : Bool) (ops : List NavOp) : Screen :=
  ops.foldl (chainStep dysZero) .welcome

theorem navStep_dys (st : AppState) (op : NavOp) :
    (navStep st op).responses.dysregulation_count = st.responses.dysregulation_count := by
  cases op with
  | next =>
    show (goNext st).responses.dysregulation_count = _
    unfold goNext
    by_cases h : st.currentScreen = Screen.q4 ∧ st.responses.dysregulation_count = some 0
    · simp [h]
    · simp only [if_neg h]
      cases flowNext st.currentScreen <;> rfl
  | back =>
    show (goBack st).responses.dysregulation_count = _
    unfold goBack
    by_cases h : st.currentScreen = Screen.q5 ∧ st.responses.dysregulation_count = some 0
    · simp [h]
    · simp only [if_neg h]
      cases flowPrev st.currentScreen <;> rfl

theorem navStep_screen (st : AppState) (op : NavOp) :
    (navStep st op).currentScreen =
      chainStep (decide (st.responses.dysregulation_count = some 0)) st.currentScreen op := by
  cases op with
  | next =>
    show (goNext st).currentScreen = chainNext _ st.currentScreen
    unfold goNext
    by_cases hd : st.responses.dysregulation_count = some 0 <;>
      cases hs : st.currentScreen <;>
      simp_all [flowNext, chainNext]
  | back =>
    show (goBack st).currentScreen = chainPrev _ st.currentScreen
    unfold goBack
    by_cases hd : st.responses.dysregulation_count = some 0 <;>
      cases hs : st.currentScreen <;>
      simp_all [flowPrev, chainPrev]

theorem navRun_aux (ops : List NavOp) (st : AppState) :
    (ops.foldl navStep st).currentScreen =
      ops.foldl (chainStep (decide (st.responses.dysregulation_count = some 0)))
        st.currentScreen := by
  induction ops generalizing st with
  | nil => rfl
  | cons op rest ih =>
    simp only [List.foldl_cons]
    rw [ih (navStep st op), navStep_dys, navStep_screen]

/-- C1.  For every sequence of `goNext()`/`goBack()` calls starting at
`welcome`, the current screen follows the static transition chain
welcome→q1→q2→q3→q4→q4b→q5→done with symmetric prev pointers, except that
when `dysregulation_count` equals 0, `goNext` from `q4` lands on `q5` and
`goBack` from `q5` lands on `q4` (`q4b` is skipped in both directions). -/
theorem goNav_follows_chain (r : Responses) (ops : List NavOp) :
    (navRun r ops).currentScreen =
      chainRun (decide (r.dysregulation_count = some 0)) ops := by
  unfold navRun chainRun
  exact navRun_aux ops _

/-- A user-driven controller operation.  Answer operations model the per-screen
buttons: each screen's elements invoke `selectRating`/`selectNumber`/
`selectChoice` with that screen's field and then the scheduled `goNext()`
auto-advance, so an answer operation fires only on its own screen and is a
no-op elsewhere (the buttons exist nowhere else). -/
inductive Op
  | start (t : Int)
  | pickOverall (v : Nat)
  | pickFocus (v : Nat)
  | chooseSocial (v : String)
  | pickDys (v : Nat)
  | chooseCoping (v : String)
  | next
  | back
  | reset
  | submitCheckin
deriving DecidableEq

/-- Apply one controller operation: `start()` records the start time and shows
`q1`; answers store the value then auto-advance via `goNext()`; `reset()`
clears the answer set and returns to `welcome`; `submit()` ends on
`screen-done` (its storage side is modelled separately). -/
def applyOp (st : AppState) : Op → AppState
  | .start t => { st with startTime := some t, currentScreen := Screen.q1 }
  | .pickOverall v =>
    if st.currentScreen = Screen.q1 then
      goNext { st with responses := { st.responses with overall_day := some v } }
    else st
  | .pickFocus v =>
    if st.currentScreen = Screen.q2 then
      goNext { st with responses := { st.responses with academic_focus := some v } }
    else st
  | .chooseSocial v =>
    if st.currentScreen = Screen.q3 then
      goNext { st with responses := { st.responses with social_interactions := some v } }
    else st
  | .pickDys v =>
    if st.currentScreen = Screen.q4 then
      goNext { st with responses := { st.responses with dysregulation_count := some v } }
    else st
  | .chooseCoping v =>
    if st.currentScreen = Screen.q4b then
      goNext { st with responses := { st.responses with used_coping_strategy := some v } }
    else st
  | .next => goNext st
  | .back => goBack st
  | .reset => { st with responses := emptyResponses, startTime := none, currentScreen := Screen.welcome }
  | .submitCheckin => { st with currentScreen := Screen.done }

/-- Run a sequence of controller operations from the boot state. -/
def runOps (ops : List Op) : AppState :=
  ops.foldl applyOp initialAppState

/-- The claimed invariant: a zero dysregulation count forces the coping
answer to `'n/a'`. -/
def CopingInv (st : AppState) : Prop :=
  st.responses.dysregulation_count = some 0 →
    st.responses.used_coping_strategy = some "n/a"

/-- Strengthened invariant for the induction: additionally, the coping screen
`q4b` is never current while the dysregulation count is 0. -/
def FlowInv (st : AppState) : Prop :=
  CopingInv st ∧ (st.currentScreen = Screen.q4b → st.responses.dysregulation_count ≠ some 0)

theorem flowInv_goNext (st : AppState) (h : FlowInv st) : FlowInv (goNext st) := by
  obtain ⟨hc, hq⟩ := h
  unfold goNext
  by_cases hspec : st.currentScreen = Screen.q4 ∧ st.responses.dysregulation_count = some 0
  · rw [if_pos hspec]
    exact ⟨fun _ => rfl, fun hx => Screen.noConfusion hx⟩
  · rw [if_neg hspec]
    cases hn : flowNext st.currentScreen with
    | none => exact ⟨hc, hq⟩
    | some n =>
      refine ⟨hc, fun h4b hd0 => ?_⟩
      have h4b' : n = Screen.q4b := h4b
      subst h4b'
      cases hs : st.currentScreen
      all_goals rw [hs] at hn
      all_goals simp only [flowNext, Option.some.injEq, reduceCtorEq] at hn
      exact hspec ⟨hs, hd0⟩

theorem flowInv_goBack (st : AppState) (h : FlowInv st) : FlowInv (goBack st) := by
  obtain ⟨hc, hq⟩ := h
  unfold goBack
  by_cases hspec : st.currentScreen = Screen.q5 ∧ st.responses.dysregulation_count = some 0
  · rw [if_pos hspec]
    exact ⟨hc, fun hx => Screen.noConfusion hx⟩
  · rw [if_neg hspec]
    cases hn : flowPrev st.currentScreen with
    | none => exact ⟨hc, hq⟩
    | some p =>
      refine ⟨hc, fun h4b hd0 => ?_⟩
      have h4b' : p = Screen.q4b := h4b
      subst h4b'
      cases hs : st.currentScreen
      all_goals rw [hs] at hn
      all_goals simp only [flowPrev, Option.some.injEq, reduceCtorEq] at hn
      exact hspec ⟨hs, hd0⟩

theorem flowInv_step (st : AppState) (op : Op) (h : FlowInv st) : FlowInv (applyOp st op) := by
  obtain ⟨hc, hq⟩ := h
  cases op with
  | start t => exact ⟨hc, by simp [applyOp]⟩
  | next => exact flowInv_goNext st ⟨hc, hq⟩
  | back => exact flowInv_goBack st ⟨hc, hq⟩
  | reset => refine ⟨?_, ?_⟩ <;> simp [applyOp, CopingInv, emptyResponses]
  | submitCheckin => exact ⟨hc, by simp [applyOp]⟩
  | pickOverall v =>
    show FlowInv (applyOp st (.pickOverall v))
    unfold applyOp
    by_cases hs : st.currentScreen = Screen.q1
    · simp only [if_pos hs]
      apply flowInv_goNext
      exact ⟨fun hd => hc hd, by simp [hs]⟩
    · simp only [if_neg hs]; exact ⟨hc, hq⟩
  | pickFocus v =>
    show FlowInv (applyOp st (.pickFocus v))
    unfold applyOp
    by_cases hs : st.currentScreen = Screen.q2
    · simp only [if_pos hs]
      apply flowInv_goNext
      exact ⟨fun hd => hc hd, by simp [hs]⟩
    · simp only [if_neg hs]; exact ⟨hc, hq⟩
  | chooseSocial v =>
    show FlowInv (applyOp st (.chooseSocial v))
    unfold applyOp
    by_cases hs : st.currentScreen = Screen.q3
    · simp only [if_pos hs]
      apply flowInv_goNext
      exact ⟨fun hd => hc hd, by simp [hs]⟩
    · simp only [if_neg hs]; exact ⟨hc, hq⟩
  | pickDys v =>
    show FlowInv (applyOp st (.pickDys v))
    unfold applyOp
    by_cases hs : st.currentScreen = Screen.q4
    · simp only [if_pos hs]
      by_cases hv : v = 0
      · subst hv
        refine ⟨?_, ?_⟩ <;> simp [goNext, hs, CopingInv]
      · refine ⟨?_, ?_⟩ <;> simp [goNext, hs, flowNext, CopingInv, hv]
    · simp only [if_neg hs]; exact ⟨hc, hq⟩
  | chooseCoping v =>
    show FlowInv (applyOp st (.chooseCoping v))
    unfold applyOp
    by_cases hs : st.currentScreen = Screen.q4b
    · simp only [if_pos hs]
      have hd : st.responses.dysregulation_count ≠ some 0 := hq hs
      refine ⟨?_, ?_⟩ <;> simp [goNext, hs, flowNext, CopingInv, hd]
    · simp only [if_neg hs]; exact ⟨hc, hq⟩

theorem flowInv_runOps (ops : List Op) : FlowInv (runOps ops) := by
  unfold runOps
  have hinit : FlowInv initialAppState := by
    constructor <;> simp [initialAppState, emptyResponses, CopingInv]
  exact List.foldlRecOn ops applyOp initialAppState hinit
    (fun st h op _ => flowInv_step st op h)

/-- C4.  Setting `dysregulation_count` to 0 at `q4` and then advancing gives
`used_coping_strategy = 'n/a'` and current screen `q5`; and in every state
reached through the controller's operations, `used_coping_strategy` is
`'n/a'` whenever `dysregulation_count` equals 0. -/
theorem dysZero_forces_copingNA :
    (∀ st : AppState, st.currentScreen = Screen.q4 →
      st.responses.dysregulation_count = some 0 →
      (goNext st).currentScreen = Screen.q5 ∧
        (goNext st).responses.used_coping_strategy = some "n/a") ∧
    (∀ ops : List Op, CopingInv (runOps ops)) := by
  constructor
  · intro st hs hd
    constructor <;> simp [goNext, hs, hd]
  · intro ops
    exact (flowInv_runOps ops).1

/-- A concrete state sitting on `q4` with a zero dysregulation count. -/
def stQ4zero : AppState :=
  { currentScreen := Screen.q4
    startTime := some 0
    responses := { emptyResponses with dysregulation_count := some 0 } }

/-- Witness for C4 at concrete inputs: answering 0 dysregulations on `q4`
and advancing lands on `q5` with coping `'n/a'`; a concrete operation run
satisfies the invariant. -/
theorem dysZero_forces_copingNA_witness :
    ((goNext stQ4zero).currentScreen = Screen.q5 ∧
      (goNext stQ4zero).responses.used_coping_strategy = some "n/a") ∧
    CopingInv (runOps [Op.start 5, Op.pickOverall 4, Op.pickFocus 3,
      Op.chooseSocial "yes_one", Op.pickDys 0, Op.next, Op.back]) :=
  ⟨dysZero_forces_copingNA.1 stQ4zero rfl rfl, dysZero_forces_copingNA.2 _⟩

/-- `entry.metadata`: completion duration in seconds and coarse device class. -/
structure Metadata where
  completion_time_seconds : Int
  device : String
deriving DecidableEq

/-- One completed check-in record as built by `app.submit()` and stored in
the local entry list. -/
structure Entry where
  id : String
  date : String
  timestamp : String
  responses : Responses
  metadata : Metadata
  synced : Bool
deriving DecidableEq

/-- `storage.saveLocal(entry)`: push the entry onto the stored array and
write it back. -/
def saveLocal (store : List Entry) (entry : Entry) : List Entry :=
  store ++ [entry]

/-- `storage.markAsSynced(entryId)`: `findIndex` of the first entry with the
given id; if found, set its `synced` flag to `true` and write the array back. -/
def markAsSynced : List Entry → String → List Entry
  | [], _ => []
  | e :: rest, entryId =>
    if e.id = entryId then { e with synced := true } :: rest
    else e :: markAsSynced rest entryId

/-- The object `storage.save(entry)` resolves with:
`{success, synced, error?}`. -/
structure SaveResult where
  success : Bool
  synced : Bool
  error : Option String
deriving DecidableEq

/-- `storage.save(entry)`: always `saveLocal` first; then, only when a
sheets URL is configured (non-empty), one forwarding attempt whose outcome is
modelled by `remoteError` (`none` = the fetch did not throw, `some msg` = it
threw `msg`).  Success marks the entry synced; failure is caught and reported
in the result without touching the local copy. -/
def save (sheetsUrl : String) (remoteError : Option String)
    (store : List Entry) (entry : Entry) : List Entry × SaveResult :=
  let afterLocal := saveLocal store entry
  if sheetsUrl = "" then
    (afterLocal, { success := true, synced := false, error := none })
  else
    match remoteError with
    | none =>
      (markAsSynced afterLocal entry.id,
        { success := true, synced := true, error := none })
    | some msg =>
      (afterLocal, { success := true, synced := false, error := some msg })

/-- Forget the sync flag of an entry (used to state that an operation
changes nothing but sync flags). -/
def clearSyncFlag (e : Entry) : Entry := { e with synced := false }

/-- Set the sync flag of an entry. -/
def setSyncedTrue (e : Entry) : Entry := { e with synced := true }

theorem markAsSynced_append_fresh (l : List Entry) (e : Entry) (entryId : String)
    (hfresh : ∀ x ∈ l, x.id ≠ entryId) (hid : e.id = entryId) :
    markAsSynced (l ++ [e]) entryId = l ++ [setSyncedTrue e] := by
  induction l with
  | nil => simp [markAsSynced, hid, setSyncedTrue]
  | cons x rest ih =>
    have hx : x.id ≠ entryId := hfresh x (by simp)
    simp only [List.cons_append, markAsSynced, if_neg hx]
    exact congrArg (x :: ·) (ih (fun y hy => hfresh y (by simp [hy])))

theorem clearSyncFlag_setSyncedTrue (e : Entry) :
    clearSyncFlag (setSyncedTrue e) = clearSyncFlag e := rfl

theorem markAsSynced_clearSyncFlag (store : List Entry) (entryId : String) :
    (markAsSynced store entryId).map clearSyncFlag = store.map clearSyncFlag := by
  induction store with
  | nil => rfl
  | cons e rest ih =>
    by_cases h : e.id = entryId
    · simp [markAsSynced, h, clearSyncFlag]
    · simp [markAsSynced, h, ih]

theorem markAsSynced_map_id (store : List Entry) (entryId : String) :
    (markAsSynced store entryId).map Entry.id = store.map Entry.id := by
  induction store with
  | nil => rfl
  | cons e rest ih =>
    by_cases h : e.id = entryId
    · simp [markAsSynced, h, setSyncedTrue]
    · simp [markAsSynced, h, ih]

/-- C2.  Saving an entry whose id is not yet in the store puts it in the
store exactly once regardless of remote configuration or outcome; the local
append is never rolled back (the resulting store is the appended store up to
sync flags); and the result always reports success, with an error message
exactly when a configured remote call threw. -/
theorem save_noUrl (remoteError : Option String) (store : List Entry) (entry : Entry) :
    save "" remoteError store entry =
      (store ++ [entry], { success := true, synced := false, error := none }) := by
  simp [save, saveLocal]

theorem save_remoteOk (url : String) (store : List Entry) (entry : Entry)
    (hurl : url ≠ "") :
    save url none store entry =
      (markAsSynced (store ++ [entry]) entry.id,
        { success := true, synced := true, error := none }) := by
  simp [save, saveLocal, hurl]

theorem save_remoteThrew (url : String) (msg : String) (store : List Entry) (entry : Entry)
    (hurl : url ≠ "") :
    save url (some msg) store entry =
      (store ++ [entry], { success := true, synced := false, error := some msg }) := by
  simp [save, saveLocal, hurl]

theorem save_always_persists_locally (url : String) (remoteError : Option String)
    (store : List Entry) (entry : Entry)
    (hfresh : ∀ x ∈ store, x.id ≠ entry.id) :
    ((save url remoteError store entry).1.countP (fun x => x.id == entry.id) = 1) ∧
    ((save url remoteError store entry).1.map clearSyncFlag
      = (store ++ [entry]).map clearSyncFlag) ∧
    ((save url remoteError store entry).2.success = true) ∧
    ((save url remoteError store entry).2.synced = true ↔ url ≠ "" ∧ remoteError = none) ∧
    ((save url remoteError store entry).2.error = if url = "" then none else remoteError) := by
  have h0 : store.countP (fun x => x.id == entry.id) = 0 := by
    rw [List.countP_eq_zero]
    intro x hx
    simpa using hfresh x hx
  have hcount : (store ++ [entry]).countP (fun x => x.id == entry.id) = 1 := by
    rw [List.countP_append, h0]
    simp [List.countP_cons]
  have hcount2 : (store ++ [setSyncedTrue entry]).countP (fun x => x.id == entry.id) = 1 := by
    rw [List.countP_append, h0]
    simp [List.countP_cons, setSyncedTrue]
  have hmark : markAsSynced (store ++ [entry]) entry.id = store ++ [setSyncedTrue entry] :=
    markAsSynced_append_fresh store entry entry.id hfresh rfl
  by_cases hurl : url = ""
  · subst hurl
    rw [save_noUrl]
    exact ⟨hcount, rfl, rfl, by simp, by simp⟩
  · cases remoteError with
    | none =>
      rw [save_remoteOk url store entry hurl]
      refine ⟨?_, ?_, rfl, by simp [hurl], by simp [hurl]⟩
      · rw [hmark]
        exact hcount2
      · rw [hmark]
        simp [clearSyncFlag, setSyncedTrue]
    | some msg =>
      rw [save_remoteThrew url msg store entry hurl]
      exact ⟨hcount, rfl, rfl, by simp [hurl], by simp [hurl]⟩

/-- A concrete completed entry for witnesses. -/
def sampleEntry : Entry :=
  { id := "entry_1000_abc123def"
    date := "2025-01-02"
    timestamp := "2025-01-02T10:00:00.000Z"
    responses :=
      { overall_day := some 4
        academic_focus := some 3
        social_interactions := some "yes_one"
        dysregulation_count := some 0
        used_coping_strategy := some "n/a"
        free_response := "ok" }
    metadata := { completion_time_seconds := 42, device := "desktop" }
    synced := false }

/-- Witness for C2: saving `sampleEntry` into an empty store with a
configured URL and a failing remote call. -/
theorem save_always_persists_locally_witness :
    (((save "https://example.test/exec" (some "Failed to fetch") [] sampleEntry).1.countP
        (fun x => x.id == sampleEntry.id) = 1) ∧
      ((save "https://example.test/exec" (some "Failed to fetch") [] sampleEntry).1.map clearSyncFlag
        = ([] ++ [sampleEntry]).map clearSyncFlag) ∧
      ((save "https://example.test/exec" (some "Failed to fetch") [] sampleEntry).2.success = true) ∧
      ((save "https://example.test/exec" (some "Failed to fetch") [] sampleEntry).2.synced = true ↔
        "https://example.test/exec" ≠ "" ∧ (some "Failed to fetch" : Option String) = none) ∧
      ((save "https://example.test/exec" (some "Failed to fetch") [] sampleEntry).2.error
        = if "https://example.test/exec" = "" then none else some "Failed to fetch")) :=
  save_always_persists_locally "https://example.test/exec" (some "Failed to fetch") [] sampleEntry
    (by intro x hx; cases hx)

/-- The body of the `storage.syncAll()` loop: one forwarding attempt for one
unsynced entry.  Success (`remoteOk e`) marks the entry synced and bumps the
synced counter; a caught failure bumps the failed counter and moves on. -/
def syncStep (remoteOk : Entry → Bool) (acc : List Entry × Nat × Nat)
    (e : Entry) : List Entry × Nat × Nat :=
  if remoteOk e then (markAsSynced acc.1 e.id, acc.2.1 + 1, acc.2.2)
  else (acc.1, acc.2.1, acc.2.2 + 1)

/-- `storage.syncAll()`: refuse when no URL is configured; otherwise iterate
the unsynced entries in store order, forwarding each (outcome modelled by
`remoteOk`) and continuing past failures.  Returns the final store, the
synced count and the failed count. -/
def syncAll (sheetsUrl : String) (remoteOk : Entry → Bool)
    (store : List Entry) : List Entry × Nat × Nat :=
  if sheetsUrl = "" then (store, 0, 0)
  else (store.filter (fun e => !e.synced)).foldl (syncStep remoteOk) (store, 0, 0)

theorem syncStep_fail (acc : List Entry × Nat × Nat) (e : Entry) :
    syncStep (fun _ => false) acc e = (acc.1, acc.2.1, acc.2.2 + 1) := rfl

theorem syncStep_ok (acc : List Entry × Nat × Nat) (e : Entry) :
    syncStep (fun _ => true) acc e = (markAsSynced acc.1 e.id, acc.2.1 + 1, acc.2.2) := rfl

theorem syncAll_fail_loop (todo : List Entry) (store : List Entry) (a b : Nat) :
    todo.foldl (syncStep (fun _ => false)) (store, a, b) = (store, a, b + todo.length) := by
  induction todo generalizing b with
  | nil => rfl
  | cons e rest ih =>
    rw [List.foldl_cons, syncStep_fail, ih (b + 1), List.length_cons]
    simp [Nat.add_comm, Nat.add_assoc, Nat.add_left_comm]

theorem syncAll_attempts_all (remoteOk : Entry → Bool) (todo : List Entry)
    (store : List Entry) (a b : Nat) :
    (todo.foldl (syncStep remoteOk) (store, a, b)).2.1 +
      (todo.foldl (syncStep remoteOk) (store, a, b)).2.2 = a + b + todo.length := by
  induction todo generalizing store a b with
  | nil => rfl
  | cons e rest ih =>
    rw [List.foldl_cons, List.length_cons]
    by_cases h : remoteOk e = true
    · rw [show syncStep remoteOk (store, a, b) e
          = (markAsSynced store e.id, a + 1, b) by simp [syncStep, h]]
      rw [ih]
      omega
    · rw [show syncStep remoteOk (store, a, b) e = (store, a, b + 1) by simp [syncStep, h]]
      rw [ih]
      omega

theorem map_cond_id_of_not_mem (l : List Entry) (entryId : String)
    (h : ∀ x ∈ l, x.id ≠ entryId) :
    l.map (fun x => if x.id = entryId then setSyncedTrue x else x) = l := by
  induction l with
  | nil => rfl
  | cons x rest ih =>
    have hx : x.id ≠ entryId := h x (by simp)
    simp only [List.map_cons, if_neg hx]
    rw [ih (fun y hy => h y (by simp [hy]))]

theorem markAsSynced_eq_map (store : List Entry) (entryId : String)
    (hids : (store.map Entry.id).Nodup) :
    markAsSynced store entryId =
      store.map (fun x => if x.id = entryId then setSyncedTrue x else x) := by
  induction store with
  | nil => rfl
  | cons e rest ih =>
    rw [List.map_cons, List.nodup_cons] at hids
    by_cases h : e.id = entryId
    · simp only [markAsSynced, if_pos h, List.map_cons]
      have hrest : ∀ y ∈ rest, y.id ≠ entryId := by
        intro y hy hyid
        apply hids.1
        have hye : y.id = e.id := by rw [hyid, h]
        rw [← hye]
        exact List.mem_map_of_mem Entry.id hy
      rw [map_cond_id_of_not_mem rest entryId hrest]
      rfl
    · simp only [markAsSynced, if_neg h, List.map_cons]
      rw [ih hids.2]

theorem setSyncedTrue_idem (e : Entry) :
    setSyncedTrue (setSyncedTrue e) = setSyncedTrue e := rfl

theorem setSyncedTrue_id (e : Entry) : (setSyncedTrue e).id = e.id := rfl

theorem syncAll_ok_loop (todo : List Entry) (store : List Entry) (a b : Nat)
    (hids : (store.map Entry.id).Nodup) :
    todo.foldl (syncStep (fun _ => true)) (store, a, b) =
      (store.map (fun x => if x.id ∈ todo.map Entry.id then setSyncedTrue x else x),
        a + todo.length, b) := by
  induction todo generalizing store a with
  | nil =>
    rw [List.foldl_nil]
    have hmap : store.map
        (fun x => if x.id ∈ ([] : List Entry).map Entry.id then setSyncedTrue x else x)
        = store := by
      rw [show (fun x : Entry =>
          if x.id ∈ ([] : List Entry).map Entry.id then setSyncedTrue x else x)
          = fun x => x by funext x; simp]
      exact store.map_id
    rw [hmap]
    simp
  | cons t rest ih =>
    rw [List.foldl_cons, syncStep_ok]
    have hids' : ((markAsSynced store t.id).map Entry.id).Nodup := by
      rw [markAsSynced_map_id]
      exact hids
    rw [ih (markAsSynced store t.id) (a + 1) hids']
    rw [markAsSynced_eq_map store t.id hids, List.map_map]
    simp only [Prod.mk.injEq, List.length_cons]
    refine ⟨?_, by omega, trivial⟩
    apply List.map_congr_left
    intro x _
    simp only [Function.comp_apply, List.map_cons, List.mem_cons]
    by_cases hx : x.id = t.id
    · rw [if_pos hx, setSyncedTrue_id]
      by_cases hr : x.id ∈ rest.map Entry.id
      · rw [if_pos hr, if_pos (Or.inl hx), setSyncedTrue_idem]
      · rw [if_neg hr, if_pos (Or.inl hx)]
    · rw [if_neg hx]
      by_cases hr : x.id ∈ rest.map Entry.id
      · rw [if_pos hr, if_pos (Or.inr hr)]
      · rw [if_neg hr, if_neg ?_]
        intro hc
        cases hc with
        | inl hc => exact hx hc
        | inr hc => exact hr hc

theorem setSyncedTrue_of_synced (e : Entry) (h : e.synced = true) :
    setSyncedTrue e = e := by
  cases e
  simp_all [setSyncedTrue]

/-- C5.  With a configured URL and unique entry ids: when every remote call
succeeds, `syncAll` marks every entry synced and reports zero failures; when
every remote call fails, it reports one failure per unsynced entry and
leaves the store unchanged; and for any outcome pattern every unsynced entry
is attempted (failures never stop the loop). -/
theorem syncAll_success_and_failure (url : String) (store : List Entry)
    (hurl : url ≠ "") (hids : (store.map Entry.id).Nodup) :
    ((syncAll url (fun _ => true) store).1 = store.map setSyncedTrue ∧
      (syncAll url (fun _ => true) store).2.1
        = (store.filter (fun e => !e.synced)).length ∧
      (syncAll url (fun _ => true) store).2.2 = 0) ∧
    ((syncAll url (fun _ => false) store).1 = store ∧
      (syncAll url (fun _ => false) store).2.1 = 0 ∧
      (syncAll url (fun _ => false) store).2.2
        = (store.filter (fun e => !e.synced)).length) ∧
    (∀ remoteOk : Entry → Bool,
      (syncAll url remoteOk store).2.1 + (syncAll url remoteOk store).2.2
        = (store.filter (fun e => !e.synced)).length) := by
  have hunf : ∀ remoteOk : Entry → Bool, syncAll url remoteOk store
      = (store.filter (fun e => !e.synced)).foldl (syncStep remoteOk) (store, 0, 0) := by
    intro remoteOk
    simp [syncAll, hurl]
  refine ⟨?_, ?_, ?_⟩
  · rw [hunf, syncAll_ok_loop _ store 0 0 hids]
    refine ⟨?_, by simp, rfl⟩
    apply List.map_congr_left
    intro x hx
    by_cases hsx : x.synced = true
    · by_cases hmem : x.id ∈ (store.filter (fun e => !e.synced)).map Entry.id
      · rw [if_pos hmem]
      · rw [if_neg hmem, setSyncedTrue_of_synced x hsx]
    · have hxf : x ∈ store.filter (fun e => !e.synced) := by
        rw [List.mem_filter]
        exact ⟨hx, by simp [hsx]⟩
      rw [if_pos (List.mem_map_of_mem Entry.id hxf)]
  · rw [hunf, syncAll_fail_loop]
    exact ⟨rfl, rfl, by simp⟩
  · intro remoteOk
    rw [hunf, syncAll_attempts_all]
    simp

/-- A concrete two-entry store with distinct ids, one entry already synced. -/
def witnessStore : List Entry :=
  [sampleEntry,
    { sampleEntry with id := "entry_2000_zzz", synced := true }]

/-- Witness for C5 on `witnessStore` with a configured URL. -/
theorem syncAll_success_and_failure_witness :
    ((syncAll "https://example.test/exec" (fun _ => true) witnessStore).1
        = witnessStore.map setSyncedTrue ∧
      (syncAll "https://example.test/exec" (fun _ => true) witnessStore).2.1
        = (witnessStore.filter (fun e => !e.synced)).length ∧
      (syncAll "https://example.test/exec" (fun _ => true) witnessStore).2.2 = 0) ∧
    ((syncAll "https://example.test/exec" (fun _ => false) witnessStore).1 = witnessStore ∧
      (syncAll "https://example.test/exec" (fun _ => false) witnessStore).2.1 = 0 ∧
      (syncAll "https://example.test/exec" (fun _ => false) witnessStore).2.2
        = (witnessStore.filter (fun e => !e.synced)).length) :=
  ⟨(syncAll_success_and_failure "https://example.test/exec" witnessStore
      (by decide) (by decide)).1,
    (syncAll_success_and_failure "https://example.test/exec" witnessStore
      (by decide) (by decide)).2.1⟩

/-- `storage.clearLocal()`: wholesale wipe of the local entry store, gated on
an explicit user confirmation dialog. -/
def clearLocal (confirmed : Bool) (store : List Entry) : List Entry :=
  if confirmed then [] else store

theorem markAsSynced_first_match (store : List Entry) (entryId : String) :
    markAsSynced store entryId = store ∨
      ∃ pre e post, store = pre ++ e :: post ∧ e.id = entryId ∧
        (∀ x ∈ pre, x.id ≠ entryId) ∧
        markAsSynced store entryId = pre ++ setSyncedTrue e :: post := by
  induction store with
  | nil => exact Or.inl rfl
  | cons x rest ih =>
    by_cases h : x.id = entryId
    · refine Or.inr ⟨[], x, rest, rfl, h, by simp, ?_⟩
      simp [markAsSynced, h, setSyncedTrue]
    · cases ih with
      | inl heq =>
        refine Or.inl ?_
        simp only [markAsSynced, if_neg h]
        rw [heq]
      | inr hex =>
        obtain ⟨pre, e, post, hsplit, hid, hpre, heq⟩ := hex
        refine Or.inr ⟨x :: pre, e, post, ?_, hid, ?_, ?_⟩
        · rw [List.cons_append, ← hsplit]
        · intro y hy
          rcases List.mem_cons.mp hy with hyx | hyp
          · rw [hyx]; exact h
          · exact hpre y hyp
        · simp only [markAsSynced, if_neg h]
          rw [heq, List.cons_append]

theorem syncLoop_clearSyncFlag (remoteOk : Entry → Bool) (todo : List Entry)
    (store : List Entry) (a b : Nat) :
    ((todo.foldl (syncStep remoteOk) (store, a, b)).1).map clearSyncFlag
      = store.map clearSyncFlag := by
  induction todo generalizing store a b with
  | nil => rfl
  | cons e rest ih =>
    rw [List.foldl_cons]
    by_cases h : remoteOk e = true
    · rw [show syncStep remoteOk (store, a, b) e
          = (markAsSynced store e.id, a + 1, b) by simp [syncStep, h]]
      rw [ih, markAsSynced_clearSyncFlag]
    · rw [show syncStep remoteOk (store, a, b) e
          = (store, a, b + 1) by simp [syncStep, h]]
      exact ih store a (b + 1)

/-- C10.  Every gateway mutation of the local entry store is one of three
shapes: `saveLocal` appends at the end; `markAsSynced` flips the sync flag of
the first entry matching the id (or does nothing when no entry matches),
changing no other field, entry, or position; `clearLocal` wipes wholesale
only when confirmed; `save` and `syncAll` touch the store only through
those (`save` appends then possibly marks, `syncAll` changes sync flags
only).  No operation removes an individual entry or edits another field. -/
theorem gateway_store_mutation_shapes :
    (∀ (store : List Entry) (e : Entry), saveLocal store e = store ++ [e]) ∧
    (∀ (store : List Entry) (entryId : String),
      (markAsSynced store entryId).map clearSyncFlag = store.map clearSyncFlag) ∧
    (∀ (store : List Entry) (entryId : String),
      markAsSynced store entryId = store ∨
        ∃ pre e post, store = pre ++ e :: post ∧ e.id = entryId ∧
          (∀ x ∈ pre, x.id ≠ entryId) ∧
          markAsSynced store entryId = pre ++ setSyncedTrue e :: post) ∧
    (∀ store : List Entry, clearLocal true store = [] ∧ clearLocal false store = store) ∧
    (∀ (url : String) (remoteError : Option String) (store : List Entry) (e : Entry),
      (save url remoteError store e).1 = saveLocal store e ∨
        (save url remoteError store e).1 = markAsSynced (saveLocal store e) e.id) ∧
    (∀ (url : String) (remoteOk : Entry → Bool) (store : List Entry),
      ((syncAll url remoteOk store).1).map clearSyncFlag = store.map clearSyncFlag) := by
  refine ⟨fun store e => rfl, markAsSynced_clearSyncFlag, markAsSynced_first_match,
    fun store => ⟨rfl, rfl⟩, ?_, ?_⟩
  · intro url remoteError store e
    by_cases hurl : url = ""
    · subst hurl
      rw [save_noUrl]
      exact Or.inl rfl
    · cases remoteError with
      | none =>
        rw [save_remoteOk url store e hurl]
        exact Or.inr rfl
      | some msg =>
        rw [save_remoteThrew url msg store e hurl]
        exact Or.inl rfl
  · intro url remoteOk store
    by_cases hurl : url = ""
    · simp [syncAll, hurl]
    · rw [show syncAll url remoteOk store
          = (store.filter (fun e => !e.synced)).foldl (syncStep remoteOk) (store, 0, 0)
        by simp [syncAll, hurl]]
      exact syncLoop_clearSyncFlag remoteOk _ store 0 0

/-- The double-quote character (the only character `exportCSV` escapes). -/
def dquoteChar : Char := Char.ofNat 34

/-- A one-character string holding a double quote. -/
def dquoteStr : String := String.mk [dquoteChar]

/-- The CSV header cells of `storage.exportCSV()`, in source order. -/
def csvHeaders : List String :=
  ["Date", "Time", "Overall Day (1-5)", "Academic Focus (1-5)", "Social Interactions",
    "Dysregulation Count", "Coping Strategy Used", "Notes", "Synced"]

/-- Render a possibly-unset numeric answer the way `Array.prototype.join`
renders it: the decimal digits, or the empty string for `null`. -/
def optNatField : Option Nat → String
  | some n => toString n
  | none => ""

/-- `storage.formatSocialResponse(value)`: fixed label lookup, falling back
to the raw value, then to the empty string. -/
def formatSocialResponse : Option String → String
  | none => ""
  | some v =>
    if v = "yes_several" then "Yes, several good moments"
    else if v = "yes_one" then "Yes, at least one"
    else if v = "not_really" then "Not really, but okay"
    else if v = "no_wished" then "No, and wished I had"
    else v

/-- `storage.formatCopingResponse(value)`: fixed label lookup, falling back
to the raw value, then to the empty string. -/
def formatCopingResponse : Option String → String
  | none => ""
  | some v =>
    if v = "yes_helped" then "Yes, and it helped"
    else if v = "yes_not_much" then "Yes, but not much"
    else if v = "no" then "No"
    else if v = "n/a" then "N/A (no dysregulation)"
    else v

/-- Double every double quote in a string (the `replace` call of
`exportCSV` on the free-text field). -/
def escapeDoubleQuotes (s : String) : String :=
  String.mk (s.data.foldr
    (fun c acc => if c = dquoteChar then dquoteChar :: dquoteChar :: acc else c :: acc) [])

/-- One CSV data row of `storage.exportCSV()`: the nine cells, in source
order, with quote-wrapping and escaping applied only to the free-text
field. -/
def csvRow (e : Entry) : List String :=
  [e.date,
    e.timestamp,
    optNatField e.responses.overall_day,
    optNatField e.responses.academic_focus,
    formatSocialResponse e.responses.social_interactions,
    optNatField e.responses.dysregulation_count,
    formatCopingResponse e.responses.used_coping_strategy,
    dquoteStr ++ escapeDoubleQuotes e.responses.free_response ++ dquoteStr,
    if e.synced then "Yes" else "No"]

/-- `Array.prototype.join(',')`. -/
def joinComma : List String → String
  | [] => ""
  | [x] => x
  | x :: xs => x ++ "," ++ joinComma xs

/-- `Array.prototype.join('\n')`. -/
def joinLines : List String → String
  | [] => ""
  | [x] => x
  | x :: xs => x ++ "\n" ++ joinLines xs

/-- `storage.exportCSV()`: refuse (alert, no file) on an empty store;
otherwise produce the header line followed by one joined row per entry, in
store order. -/
def exportCSV (store : List Entry) : Option String :=
  if store.length = 0 then none
  else some (joinLines (joinComma csvHeaders :: store.map (fun e => joinComma (csvRow e))))

/-- Counterexample to C6 as stated: on a one-entry store the produced header
line is `Date,Time,…`, not the claimed `Date,Timestamp,…`. -/
theorem exportCSV_header_counterexample :
    joinComma csvHeaders ≠
      "Date,Timestamp,Overall Day (1-5),Academic Focus (1-5),Social Interactions,Dysregulation Count,Coping Strategy Used,Notes,Synced" ∧
    exportCSV [sampleEntry]
      = some (joinComma csvHeaders ++ "\n" ++ joinComma (csvRow sampleEntry)) := by
  exact ⟨by decide, rfl⟩

/-- C6 (amended: the second header cell is `Time`).  Export of an empty
store produces no file; export of a one-entry store produces exactly the
header line
`Date,Time,Overall Day (1-5),Academic Focus (1-5),Social Interactions,Dysregulation Count,Coping Strategy Used,Notes,Synced`
followed by one comma-joined data row with the nine fields in that order,
quote-escaping applied only to the free-text field. -/
theorem exportCSV_empty_and_single (e : Entry) :
    exportCSV [] = none ∧
    joinComma csvHeaders
      = "Date,Time,Overall Day (1-5),Academic Focus (1-5),Social Interactions,Dysregulation Count,Coping Strategy Used,Notes,Synced" ∧
    exportCSV [e] = some (joinComma csvHeaders ++ "\n" ++ joinComma (csvRow e)) ∧
    joinComma (csvRow e)
      = e.date ++ "," ++ e.timestamp ++ ","
        ++ optNatField e.responses.overall_day ++ ","
        ++ optNatField e.responses.academic_focus ++ ","
        ++ formatSocialResponse e.responses.social_interactions ++ ","
        ++ optNatField e.responses.dysregulation_count ++ ","
        ++ formatCopingResponse e.responses.used_coping_strategy ++ ","
        ++ dquoteStr ++ escapeDoubleQuotes e.responses.free_response ++ dquoteStr ++ ","
        ++ (if e.synced then "Yes" else "No") := by
  refine ⟨rfl, by decide, rfl, ?_⟩
  simp only [csvRow, joinComma, String.append_assoc]

/-- A parsed in-progress session blob (`carmel_checkin_progress`):
`currentScreen`, `startTime` (ms), and the partial answer set.  Fields the
blob may lack are options. -/
structure Progress where
  currentScreen : Option Screen
  startTime : Option Int
  responses : Responses
deriving DecidableEq

/-- What `app.loadProgress()` does with the saved blob. -/
inductive LoadOutcome
  | noSession
  | restored
  | offered (s : Screen)
  | discarded
deriving DecidableEq

/-- JavaScript truthiness of `progress.startTime`: present and nonzero. -/
def truthyTime : Option Int → Bool
  | none => false
  | some t => t != 0

/-- `app.loadProgress()`: nothing saved means nothing happens; an
unparseable blob is caught and cleared; a parsed session is restored only
when `startTime` is truthy and `Date.now() - startTime < 3600000`, with a
resume dialog exactly when the saved screen exists and is not `welcome`;
otherwise the session is cleared.  The saved blob is modelled as
`none` (absent), `some none` (present but malformed), or `some (some p)`. -/
def loadProgress (now : Int) (saved : Option (Option Progress)) : LoadOutcome :=
  match saved with
  | none => .noSession
  | some none => .discarded
  | some (some p) =>
    if truthyTime p.startTime ∧ now - p.startTime.getD 0 < 3600000 then
      match p.currentScreen with
      | some s => if s ≠ Screen.welcome then .offered s else .restored
      | none => .restored
    else .discarded

/-- A session saved at millisecond 1, on screen `q3`. -/
def agedProgress : Progress :=
  { currentScreen := some Screen.q3, startTime := some 1, responses := emptyResponses }

/-- Counterexample to C7 as stated: at `now = 3600001` the session started
at millisecond 1 is exactly one hour old — at most one hour old, so the
claim requires a resume offer — yet `loadProgress` discards it (the code
tests strictly `< 3600000`). -/
theorem loadProgress_boundary_counterexample :
    (3600001 - 1 : Int) ≤ 3600000 ∧
    loadProgress 3600001 (some (some agedProgress)) = LoadOutcome.discarded := by
  exact ⟨by decide, by decide⟩

/-- C7 (amended: the resume window is strictly less than one hour).  A
parsed session is offered for resume exactly when its start timestamp is
truthy, strictly less than one hour old, and its saved screen exists and is
not `welcome`; an offer is always at the saved screen; and a session one
hour old or older is discarded. -/
theorem loadProgress_resume_window (now : Int) (p : Progress) :
    ((∃ s, loadProgress now (some (some p)) = LoadOutcome.offered s) ↔
      (truthyTime p.startTime = true ∧ now - p.startTime.getD 0 < 3600000 ∧
        ∃ s, p.currentScreen = some s ∧ s ≠ Screen.welcome)) ∧
    (∀ s, loadProgress now (some (some p)) = LoadOutcome.offered s →
      p.currentScreen = some s) ∧
    (truthyTime p.startTime = true → 3600000 ≤ now - p.startTime.getD 0 →
      loadProgress now (some (some p)) = LoadOutcome.discarded) := by
  simp only [loadProgress]
  by_cases hfresh : truthyTime p.startTime ∧ now - p.startTime.getD 0 < 3600000
  · rw [if_pos hfresh]
    refine ⟨?_, ?_, ?_⟩
    · cases hscr : p.currentScreen with
      | none =>
        simp only [iff_iff_implies_and_implies]
        constructor
        · rintro ⟨s, hs⟩
          cases hs
        · rintro ⟨-, -, s, hs, -⟩
          cases hs
      | some s =>
        dsimp only
        by_cases hw : s ≠ Screen.welcome
        · rw [if_pos hw]
          constructor
          · intro _
            exact ⟨hfresh.1, hfresh.2, s, rfl, hw⟩
          · intro _
            exact ⟨s, rfl⟩
        · rw [if_neg hw]
          constructor
          · rintro ⟨t, ht⟩
            cases ht
          · rintro ⟨-, -, t, ht, hwt⟩
            rw [Option.some.injEq] at ht
            exact absurd (ht ▸ hwt) hw
    · intro s hs
      cases hscr : p.currentScreen with
      | none =>
        rw [hscr] at hs
        cases hs
      | some t =>
        rw [hscr] at hs
        dsimp only at hs
        by_cases hw : t ≠ Screen.welcome
        · rw [if_pos hw, LoadOutcome.offered.injEq] at hs
          rw [hs]
        · rw [if_neg hw] at hs
          cases hs
    · intro htr hold
      exact absurd hfresh.2 (by omega)
  · rw [if_neg hfresh]
    refine ⟨?_, ?_, ?_⟩
    · constructor
      · rintro ⟨s, hs⟩
        cases hs
      · rintro ⟨htr, hlt, -⟩
        exact absurd ⟨htr, hlt⟩ hfresh
    · intro s hs
      cases hs
    · intro _ _
      rfl

/-- Witness for C7 at concrete inputs: a 10-minute-old session on `q3` and
the same session viewed two hours later. -/
theorem loadProgress_resume_window_witness :
    loadProgress 600001 (some (some agedProgress)) = LoadOutcome.offered Screen.q3 ∧
    agedProgress.currentScreen = some Screen.q3 ∧
    loadProgress 7200000 (some (some agedProgress)) = LoadOutcome.discarded := by
  refine ⟨?_, rfl, ?_⟩
  · decide
  · exact (loadProgress_resume_window 7200000 agedProgress).2.2 (by decide) (by decide)

/-- The gateway configuration held by the storage module. -/
structure StorageConfig where
  sheetsUrl : String
deriving DecidableEq

/-- The sheets URL hard-coded in `storage.config` before `init()` runs. -/
def defaultSheetsUrl : String :=
  "https://script.google.com/macros/s/AKfycbx0BHrK2r8X7K9NN5hW7q3wBVurCEyY9ZZWDw_gmaJH8j5162-8pohgNlbrJiDmMb30/exec"

/-- A parsed configuration blob (`carmel_checkin_config`). -/
structure ParsedConfig where
  sheetsUrl : Option String
deriving DecidableEq

/-- `storage.init()`: with no saved blob the hard-coded configuration
stands; a saved blob is run through `JSON.parse` with NO try/catch, so a
malformed blob makes `init` throw (modelled as `Except.error`); a parsed
blob sets `sheetsUrl` to the saved value or `''`.  The saved blob is
modelled as `none` (absent), `some none` (present but malformed), or
`some (some parsed)`. -/
def initStorageConfig (savedConfig : Option (Option ParsedConfig)) :
    Except String StorageConfig :=
  match savedConfig with
  | none => .ok { sheetsUrl := defaultSheetsUrl }
  | some none => .error "SyntaxError: Unexpected token in JSON"
  | some (some parsed) =>
    .ok { sheetsUrl := match parsed.sheetsUrl with
      | some u => u
      | none => "" }

/-- Counterexample to C8 as stated: a malformed configuration blob does not
fall back to defaults — `storage.init()` has no try/catch around
`JSON.parse`, so the load throws. -/
theorem initConfig_malformed_counterexample :
    initStorageConfig (some none)
      = Except.error "SyntaxError: Unexpected token in JSON" ∧
    initStorageConfig (some none)
      ≠ Except.ok { sheetsUrl := defaultSheetsUrl } := by
  exact ⟨rfl, fun h => Except.noConfusion h⟩

/-- C8 (amended: only the session load is malformed-tolerant).  A malformed
in-progress session blob is treated as absent — `loadProgress` catches the
parse error and discards the session without throwing — while a malformed
configuration blob is NOT handled: `storage.init()` propagates the
`JSON.parse` exception instead of falling back to defaults (an absent blob
does leave the defaults in place). -/
theorem malformed_blob_handling :
    (∀ now : Int, loadProgress now (some none) = LoadOutcome.discarded) ∧
    (∃ msg, initStorageConfig (some none) = Except.error msg) ∧
    initStorageConfig none = Except.ok { sheetsUrl := defaultSheetsUrl } := by
  exact ⟨fun _ => rfl, ⟨"SyntaxError: Unexpected token in JSON", rfl⟩, rfl⟩

/-- `app.generateId()`: `'entry_' + Date.now() + '_' + <random base-36
suffix>`.  The clock value and the random suffix are explicit inputs; the
function performs no uniqueness check against the store. -/
def generateId (nowMs : Int) (randSuffix : String) : String :=
  "entry_" ++ toString nowMs ++ "_" ++ randSuffix

/-- `Math.round((endTime - startTime) / 1000)`, on millisecond integers. -/
def completionSeconds (startTime : Option Int) (endTime : Int) : Int :=
  Int.fdiv (2 * (endTime - startTime.getD 0) + 1000) 2000

/-- The environment values `app.submit()` reads: the clock, the random id
suffix, the date string, the ISO timestamp and the device class. -/
structure SubmitEnv where
  nowMs : Int
  randSuffix : String
  dateStr : String
  isoTimestamp : String
  device : String
deriving DecidableEq

/-- The entry object literal built inside `app.submit()`. -/
def buildEntry (env : SubmitEnv) (st : AppState) : Entry :=
  { id := generateId env.nowMs env.randSuffix
    date := env.dateStr
    timestamp := env.isoTimestamp
    responses := st.responses
    metadata :=
      { completion_time_seconds := completionSeconds st.startTime env.nowMs
        device := env.device }
    synced := false }

/-- `app.submit()`: build the entry, `storage.save` it, and show
`screen-done` — with NO check of the current screen anywhere in its body
(the in-progress session is also cleared, which this model leaves to
`loadProgress`). -/
def submit (env : SubmitEnv) (url : String) (remoteError : Option String)
    (st : AppState) (store : List Entry) : AppState × List Entry × SaveResult :=
  let entry := buildEntry env st
  let saved := save url remoteError store entry
  ({ st with currentScreen := Screen.done }, saved.1, saved.2)

/-- `app.submitFreeResponse()`: capture the trimmed textarea into
`free_response`, then `submit()`. -/
def submitFreeResponse (env : SubmitEnv) (textarea : String) (url : String)
    (remoteError : Option String) (st : AppState) (store : List Entry) :
    AppState × List Entry × SaveResult :=
  submit env url remoteError
    { st with responses := { st.responses with free_response := textarea.trim } } store

/-- The keydown listener installed by `app.init()`: Enter submits only when
the current screen is `q5`; otherwise nothing happens. -/
def handleEnterKey (key : String) (env : SubmitEnv) (textarea : String)
    (url : String) (remoteError : Option String) (st : AppState)
    (store : List Entry) : AppState × List Entry :=
  if key = "Enter" ∧ st.currentScreen = Screen.q5 then
    let r := submitFreeResponse env textarea url remoteError st store
    (r.1, r.2.1)
  else (st, store)

/-- A concrete submit environment. -/
def sampleEnv : SubmitEnv :=
  { nowMs := 1000
    randSuffix := "abc123def"
    dateStr := "2025-01-02"
    isoTimestamp := "2025-01-02T10:00:00.000Z"
    device := "desktop" }

/-- A concrete state sitting on `q1` mid-wizard. -/
def stAtQ1 : AppState :=
  { currentScreen := Screen.q1, startTime := some 0, responses := emptyResponses }

/-- Counterexample to C3 as stated: `submit()` called with current screen
`q1` is neither a no-op nor rejected — it creates and stores an entry and
moves to `screen-done`. -/
theorem submit_offscreen_counterexample :
    stAtQ1.currentScreen ≠ Screen.q5 ∧
    (submit sampleEnv "" none stAtQ1 []).2.1.length = 1 ∧
    (submit sampleEnv "" none stAtQ1 []).1.currentScreen = Screen.done := by
  exact ⟨by decide, rfl, rfl⟩

theorem save_length (url : String) (remoteError : Option String)
    (store : List Entry) (entry : Entry) :
    (save url remoteError store entry).1.length = store.length + 1 := by
  have hlen : ∀ s : List Entry, ∀ i, (markAsSynced s i).length = s.length := by
    intro s i
    have := congrArg List.length (markAsSynced_map_id s i)
    simpa using this
  by_cases hurl : url = ""
  · subst hurl
    rw [save_noUrl]
    simp
  · cases remoteError with
    | none =>
      rw [save_remoteOk url store entry hurl]
      simp [hlen, saveLocal]
    | some msg =>
      rw [save_remoteThrew url msg store entry hurl]
      simp

/-- C3 (amended: the only screen guard is on the keyboard path).  The
Enter-key listener is a no-op whenever the current screen is not `q5` (state
and store unchanged); `submit()` itself performs no screen check — called
from any screen it stores a new entry and moves to `screen-done`. -/
theorem submit_guarded_only_by_key_path (key : String) (env : SubmitEnv)
    (textarea : String) (url : String) (remoteError : Option String)
    (st : AppState) (store : List Entry)
    (hscr : st.currentScreen ≠ Screen.q5) :
    handleEnterKey key env textarea url remoteError st store = (st, store) ∧
    (submit env url remoteError st store).2.1.length = store.length + 1 ∧
    (submit env url remoteError st store).1.currentScreen = Screen.done := by
  refine ⟨?_, ?_, rfl⟩
  · rw [handleEnterKey, if_neg (fun h => hscr h.2)]
  · show (save url remoteError store (buildEntry env st)).1.length = store.length + 1
    exact save_length url remoteError store (buildEntry env st)

/-- Witness for C3's amended theorem at concrete inputs. -/
theorem submit_guarded_only_by_key_path_witness :
    handleEnterKey "Enter" sampleEnv "note" "" none stAtQ1 [] = (stAtQ1, []) ∧
    (submit sampleEnv "" none stAtQ1 []).2.1.length = 1 ∧
    (submit sampleEnv "" none stAtQ1 []).1.currentScreen = Screen.done :=
  submit_guarded_only_by_key_path "Enter" sampleEnv "note" "" none stAtQ1 []
    (by decide)

/-- A concrete state sitting on `q5`, ready to submit. -/
def stAtQ5 : AppState :=
  { currentScreen := Screen.q5, startTime := some 0, responses := emptyResponses }

/-- A stored entry whose id coincides with what `generateId` produces for
clock value 1000 and random suffix `abc123def`. -/
def dupEntry : Entry :=
  { id := "entry_1000_abc123def"
    date := "2025-01-01"
    timestamp := "2025-01-01T10:00:00.000Z"
    responses := emptyResponses
    metadata := { completion_time_seconds := 3, device := "desktop" }
    synced := false }

/-- Counterexample to C9 as stated: `generateId` does no uniqueness check,
so when the clock value and random suffix repeat those behind a stored
entry's id, `submit()` produces a duplicate identifier and the stored
sequence loses id-uniqueness. -/
theorem generateId_collision_counterexample :
    dupEntry.id = (buildEntry sampleEnv stAtQ5).id ∧
    ¬ (((submit sampleEnv "" none stAtQ5 [dupEntry]).2.1.map Entry.id).Nodup) := by
  exact ⟨by decide, by decide⟩

/-- C9 (amended: uniqueness holds only when the generated id is fresh).
The entry produced by `submit()` carries
`generateId nowMs randSuffix`; whenever that string differs from every
stored id — which the code does not check — the new store's ids are the old
ids plus the new one and id-uniqueness is preserved. -/
theorem submit_id_unique_unless_collision (env : SubmitEnv) (url : String)
    (remoteError : Option String) (st : AppState) (store : List Entry)
    (hfresh : ∀ x ∈ store, x.id ≠ generateId env.nowMs env.randSuffix)
    (hnodup : (store.map Entry.id).Nodup) :
    ((submit env url remoteError st store).2.1.map Entry.id
      = store.map Entry.id ++ [generateId env.nowMs env.randSuffix]) ∧
    (((submit env url remoteError st store).2.1.map Entry.id).Nodup) := by
  have hmapid : (save url remoteError store (buildEntry env st)).1.map Entry.id
      = store.map Entry.id ++ [generateId env.nowMs env.randSuffix] := by
    by_cases hurl : url = ""
    · subst hurl
      rw [save_noUrl]
      simp [buildEntry]
    · cases remoteError with
      | none =>
        rw [save_remoteOk url store (buildEntry env st) hurl, markAsSynced_map_id]
        simp [saveLocal, buildEntry]
      | some msg =>
        rw [save_remoteThrew url msg store (buildEntry env st) hurl]
        simp [buildEntry]
  have hsub : (submit env url remoteError st store).2.1
      = (save url remoteError store (buildEntry env st)).1 := rfl
  rw [hsub, hmapid]
  refine ⟨rfl, ?_⟩
  rw [List.nodup_append]
  refine ⟨hnodup, List.nodup_singleton _, ?_⟩
  intro a ha hb
  rw [List.mem_singleton] at hb
  obtain ⟨x, hx, hxa⟩ := List.mem_map.mp ha
  exact hfresh x hx (by rw [hxa, hb])

/-- A stored entry with an id different from the one `sampleEnv` yields. -/
def otherEntry : Entry := { dupEntry with id := "entry_999_xyz" }

/-- Witness for C9's amended theorem: submitting over a store holding one
entry with a different id. -/
theorem submit_id_unique_unless_collision_witness :
    ((submit sampleEnv "" none stAtQ5 [otherEntry]).2.1.map Entry.id
      = [otherEntry].map Entry.id
        ++ [generateId sampleEnv.nowMs sampleEnv.randSuffix]) ∧
    (((submit sampleEnv "" none stAtQ5 [otherEntry]).2.1.map Entry.id).Nodup) :=
  submit_id_unique_unless_collision sampleEnv "" none stAtQ5 [otherEntry]
    (by decide) (by decide)
